import Mathlib

/-!
Shallow embedding of `components/adaptive_lightning/adaptive_lightning.cpp`
(the adaptive-lighting controller): the color-temperature curve
(`smooth_transition`, `calc_color_temperature`) and the controller state
machine (`update`, `write_state`, `handle_light_state_change`,
`handle_target_state_reached`).  C++ `float` values are idealized as real
numbers, `time_t` timestamps as integers, and `std::atanh`, `std::tanh`,
`std::pow`, `std::roundf` as their mathematical counterparts.
-/

open scoped Classical

noncomputable section

/-! ## Hyperbolic function facts missing from Mathlib -/

theorem tanh_eq_exp (x : ℝ) :
    Real.tanh x = (Real.exp (2 * x) - 1) / (Real.exp (2 * x) + 1) := by
  have h0 : Real.exp x ≠ 0 := (Real.exp_pos x).ne'
  have h1 : (0:ℝ) < Real.exp x + Real.exp (-x) := by positivity
  have h2 : (0:ℝ) < Real.exp (2 * x) + 1 := by positivity
  have hmul : Real.exp (2 * x) = Real.exp x * Real.exp x := by
    rw [two_mul, Real.exp_add]
  rw [Real.tanh_eq_sinh_div_cosh, Real.sinh_eq, Real.cosh_eq, Real.exp_neg, hmul]
  have hne : Real.exp x + (Real.exp x)⁻¹ ≠ 0 := by positivity
  field_simp

theorem tanh_mem_Ioo (x : ℝ) : -1 < Real.tanh x ∧ Real.tanh x < 1 := by
  rw [tanh_eq_exp]
  have h : (0:ℝ) < Real.exp (2 * x) := Real.exp_pos _
  constructor
  · rw [lt_div_iff (by linarith)]
    linarith
  · rw [div_lt_one (by linarith)]
    linarith

theorem tanh_le_tanh {x y : ℝ} (h : x ≤ y) : Real.tanh x ≤ Real.tanh y := by
  rw [tanh_eq_exp, tanh_eq_exp]
  have hx : (0:ℝ) < Real.exp (2 * x) := Real.exp_pos _
  have hy : (0:ℝ) < Real.exp (2 * y) := Real.exp_pos _
  have hxy : Real.exp (2 * x) ≤ Real.exp (2 * y) := Real.exp_le_exp.2 (by linarith)
  rw [div_le_div_iff (by linarith) (by linarith)]
  nlinarith

/-- Inverse hyperbolic tangent, as computed by `std::atanh`. -/
def atanh (x : ℝ) : ℝ := Real.log ((1 + x) / (1 - x)) / 2

theorem tanh_atanh {x : ℝ} (h1 : -1 < x) (h2 : x < 1) :
    Real.tanh (atanh x) = x := by
  have hx1 : (0:ℝ) < 1 + x := by linarith
  have hx2 : (0:ℝ) < 1 - x := by linarith
  have hq : (0:ℝ) < (1 + x) / (1 - x) := by positivity
  rw [atanh, tanh_eq_exp]
  rw [show 2 * (Real.log ((1 + x) / (1 - x)) / 2) = Real.log ((1 + x) / (1 - x)) by ring]
  rw [Real.exp_log hq]
  rw [div_eq_iff]
  · field_simp
    ring
  · have : (0:ℝ) < (1 + x) / (1 - x) + 1 := by positivity
    linarith

/-! ## The curve: `smooth_transition` and `calc_color_temperature`

Embeds lines 138-159 of `adaptive_lightning.cpp`.  The one-time-computed
sigmoid constants `a` and `b` of `smooth_transition` are embedded as
`aConst` and `bConst`. -/

/-- `constexpr double y1 = 0.00001` of `smooth_transition`. -/
def y1 : ℝ := 1 / 100000

/-- `constexpr double y2 = 0.999` of `smooth_transition`. -/
def y2 : ℝ := 999 / 1000

/-- `static float a = (std::atanh(2 * y2 - 1) - std::atanh(2 * y1 - 1))`. -/
def aConst : ℝ := atanh (2 * y2 - 1) - atanh (2 * y1 - 1)

/-- `static float b = -(std::atanh(2 * y1 - 1) / a)`. -/
def bConst : ℝ := -(atanh (2 * y1 - 1) / aConst)

/-- `smooth_transition` (lines 139-147): fold `x` about 1/2, raise to
`speed`, and map through the calibrated tanh sigmoid onto `[y_min, y_max]`. -/
def smooth_transition (x y_min y_max speed : ℝ) : ℝ :=
  y_min + (y_max - y_min) * 0.5 * (Real.tanh (aConst * (|1 - x * 2| ^ speed - bConst)) + 1)

/-- `std::roundf(mireds * 10) / 10` (line 157): round to one decimal place. -/
def round1 (x : ℝ) : ℝ := (round (x * 10) : ℝ) / 10

/-- `AdaptiveLightningComponent::calc_color_temperature` (lines 149-159). -/
def calc_color_temperature (now sunrise sunset : ℤ) (min_mireds max_mireds speed : ℝ) : ℝ :=
  if now < sunrise ∨ sunset < now then max_mireds
  else
    round1 (smooth_transition (((now - sunrise : ℤ) : ℝ) / ((sunset - sunrise : ℤ) : ℝ))
      min_mireds max_mireds speed)

/-! ### Values of the sigmoid constants -/

theorem atanh_y1 : atanh (2 * y1 - 1) = -(Real.log 99999 / 2) := by
  rw [atanh, y1]
  rw [show (1 + (2 * ((1:ℝ) / 100000) - 1)) / (1 - (2 * ((1:ℝ) / 100000) - 1))
      = (99999:ℝ)⁻¹ by norm_num]
  rw [Real.log_inv]
  ring

theorem atanh_y2 : atanh (2 * y2 - 1) = Real.log 999 / 2 := by
  rw [atanh, y2]
  rw [show (1 + (2 * ((999:ℝ) / 1000) - 1)) / (1 - (2 * ((999:ℝ) / 1000) - 1))
      = (999:ℝ) by norm_num]

theorem aConst_eq : aConst = Real.log 999 / 2 + Real.log 99999 / 2 := by
  rw [aConst, atanh_y1, atanh_y2]; ring

theorem aConst_pos : 0 < aConst := by
  rw [aConst_eq]
  have h1 : 0 < Real.log 999 := Real.log_pos (by norm_num)
  have h2 : 0 < Real.log 99999 := Real.log_pos (by norm_num)
  linarith

theorem arg_edge : aConst * (1 - bConst) = atanh (2 * y2 - 1) := by
  rw [bConst, aConst]
  have ha : aConst ≠ 0 := aConst_pos.ne'
  rw [aConst] at ha
  field_simp

theorem arg_noon : aConst * (0 - bConst) = atanh (2 * y1 - 1) := by
  rw [bConst]
  have ha : aConst ≠ 0 := aConst_pos.ne'
  field_simp

theorem tanh_edge : Real.tanh (aConst * (1 - bConst)) = 499 / 500 := by
  rw [arg_edge, show 2 * y2 - 1 = (499:ℝ) / 500 by rw [y2]; norm_num]
  exact tanh_atanh (by norm_num) (by norm_num)

theorem tanh_noon : Real.tanh (aConst * (0 - bConst)) = -(49999 / 50000) := by
  rw [arg_noon, show 2 * y1 - 1 = -((49999:ℝ) / 50000) by rw [y1]; norm_num]
  exact tanh_atanh (by norm_num) (by norm_num)

/-! ### Basic curve lemmas -/

theorem smooth_transition_edge {x : ℝ} (y_min y_max speed : ℝ) (hx : |1 - x * 2| = 1) :
    smooth_transition x y_min y_max speed = y_min + (y_max - y_min) * (999 / 1000) := by
  rw [smooth_transition, hx, Real.one_rpow, tanh_edge]
  ring

theorem smooth_transition_noon {x : ℝ} (y_min y_max : ℝ) {speed : ℝ} (hsp : speed ≠ 0)
    (hx : |1 - x * 2| = 0) :
    smooth_transition x y_min y_max speed = y_min + (y_max - y_min) * (1 / 100000) := by
  rw [smooth_transition, hx, Real.zero_rpow hsp, tanh_noon]
  ring

theorem smooth_transition_mem (x : ℝ) {y_min y_max : ℝ} (speed : ℝ) (h : y_min ≤ y_max) :
    y_min ≤ smooth_transition x y_min y_max speed ∧
    smooth_transition x y_min y_max speed ≤ y_max := by
  obtain ⟨hl, hu⟩ := tanh_mem_Ioo (aConst * (|1 - x * 2| ^ speed - bConst))
  rw [smooth_transition]
  constructor <;> nlinarith

theorem smooth_transition_mono {y_min y_max speed x1 x2 : ℝ} (h : y_min ≤ y_max)
    (hs : 0 ≤ speed) (hx : |1 - x1 * 2| ≤ |1 - x2 * 2|) :
    smooth_transition x1 y_min y_max speed ≤ smooth_transition x2 y_min y_max speed := by
  have h1 : |1 - x1 * 2| ^ speed ≤ |1 - x2 * 2| ^ speed :=
    Real.rpow_le_rpow (abs_nonneg _) hx hs
  have h2 : aConst * (|1 - x1 * 2| ^ speed - bConst)
      ≤ aConst * (|1 - x2 * 2| ^ speed - bConst) := by
    apply mul_le_mul_of_nonneg_left _ aConst_pos.le
    linarith
  have h3 := tanh_le_tanh h2
  rw [smooth_transition, smooth_transition]
  nlinarith

theorem round1_mono {x y : ℝ} (h : x ≤ y) : round1 x ≤ round1 y := by
  rw [round1, round1]
  have hr : round (x * 10) ≤ round (y * 10) := by
    rw [round_eq, round_eq]
    exact Int.floor_le_floor (by linarith)
  have : ((round (x * 10) : ℤ) : ℝ) ≤ ((round (y * 10) : ℤ) : ℝ) := Int.cast_le.2 hr
  linarith

theorem round1_close (x : ℝ) : |round1 x - x| ≤ 1 / 20 := by
  have h := abs_sub_round (x * 10)
  rw [round1, show (round (x * 10) : ℝ) / 10 - x = -((x * 10 - round (x * 10)) / 10) by ring,
    abs_neg, abs_div, abs_of_pos (show (0:ℝ) < 10 by norm_num)]
  linarith

theorem round1_eq_of {x : ℝ} (k : ℤ) (h1 : (k : ℝ) ≤ x * 10 + 1 / 2)
    (h2 : x * 10 + 1 / 2 < k + 1) : round1 x = (k : ℝ) / 10 := by
  rw [round1, round_eq]
  rw [show ⌊x * 10 + 1 / 2⌋ = k from Int.floor_eq_iff.2 ⟨h1, h2⟩]

theorem calc_in_window {now sunrise sunset : ℤ} (h1 : sunrise ≤ now) (h2 : now ≤ sunset)
    (min_mireds max_mireds speed : ℝ) :
    calc_color_temperature now sunrise sunset min_mireds max_mireds speed =
      round1 (smooth_transition (((now - sunrise : ℤ) : ℝ) / ((sunset - sunrise : ℤ) : ℝ))
        min_mireds max_mireds speed) := by
  rw [calc_color_temperature, if_neg]
  push_neg
  exact ⟨h1, h2⟩

/-! ### Numeric bounds on logarithms (for concrete curve evaluations) -/

theorem log_999_lt_7 : Real.log 999 < 7 := by
  rw [Real.log_lt_iff_lt_exp (by norm_num)]
  have h1 : (2.7182818283 : ℝ) ^ (7:ℕ) < Real.exp 1 ^ (7:ℕ) :=
    pow_lt_pow_left Real.exp_one_gt_d9 (by norm_num) (by norm_num)
  have h2 : Real.exp 1 ^ (7:ℕ) = Real.exp 7 := by
    rw [← Real.exp_nat_mul]; norm_num
  nlinarith [h1, h2]

theorem log_99999_gt_11 : 11 < Real.log 99999 := by
  rw [Real.lt_log_iff_exp_lt (by norm_num)]
  have h1 : Real.exp 1 ^ (11:ℕ) < (2.7182818286 : ℝ) ^ (11:ℕ) :=
    pow_lt_pow_left Real.exp_one_lt_d9 (Real.exp_pos 1).le (by norm_num)
  have h2 : Real.exp 1 ^ (11:ℕ) = Real.exp 11 := by
    rw [← Real.exp_nat_mul]; norm_num
  nlinarith [h1, h2]

theorem log_two_lt_one : Real.log 2 < 1 := by
  rw [Real.log_lt_iff_lt_exp (by norm_num)]
  linarith [Real.exp_one_gt_d9]

/-! ## The controller state machine

Embeds `AdaptiveLightningComponent::update`, `write_state`,
`handle_light_state_change` and `handle_target_state_reached`
(lines 32-136).  The component's collaborators (light device, sun
provider) are modelled by an environment record that an entry point
reads; a command issued to the light (`light_->make_call() ... perform()`)
is returned as an explicit output. -/

/-- Observed state of the light device (`light_->remote_values`). -/
structure LightValues where
  is_on : Bool
  color_temp : ℝ
  brightness : ℝ

/-- The environment an entry point runs in: collaborator presence, the
light's observed values, and the sun provider's data for the current
evaluation (`now`, today's sunrise and sunset; `none` when the event is
undeterminable). -/
structure Env where
  has_light : Bool
  has_sun : Bool
  light : LightValues
  now : ℤ
  sunrise : Option ℤ
  sunset : Option ℤ

/-- Immutable configuration of the component (setup-time fields). -/
structure Config where
  restore_always_on : Bool
  min_mireds : ℝ
  max_mireds : ℝ
  speed : ℝ
  transition_length : ℕ

/-- A command issued to the light (`set_color_temperature`,
`set_brightness`, optional `set_transition_length_if_supported`). -/
structure Command where
  color_temp : ℝ
  brightness : ℝ
  transition : Option ℕ

/-- Mutable controller state.  `state` is the switch's on/off state
(`this->state`), i.e. whether adaptive lighting is enabled.
`last_requested_color_temp` is `none` while unset — modelled from the
spec: the header (not in the sources) initializes the float field to an
"unset" sentinel that compares as "always different" in the dead-band
check and as "not set" in the `> 0` check. -/
structure CState where
  state : Bool
  last_requested_color_temp : Option ℝ
  previous_light_state : Bool

/-- The dead-band check of `update` (line 67):
`std::fabs(mireds - last_requested_color_temp_) < 0.1`, `False` while the
sentinel is in place. -/
def dead_band : Option ℝ → ℝ → Prop
  | some l, mireds => |mireds - l| < 0.1
  | none, _ => False

@[simp] theorem dead_band_none (m : ℝ) : dead_band none m ↔ False := Iff.rfl

@[simp] theorem dead_band_some (l m : ℝ) : dead_band (some l) m ↔ |m - l| < 0.1 := Iff.rfl

/-- The external-override check of `handle_light_state_change` (line 111):
`last_requested_color_temp_ > 0 && std::fabs(current_temp - last_requested_color_temp_) > 0.1`. -/
def externally_changed : Option ℝ → ℝ → Prop
  | some l, current => 0 < l ∧ 0.1 < |current - l|
  | none, _ => False

@[simp] theorem externally_changed_none (c : ℝ) : externally_changed none c ↔ False := Iff.rfl

@[simp] theorem externally_changed_some (l c : ℝ) :
    externally_changed (some l) c ↔ 0 < l ∧ 0.1 < |c - l| := Iff.rfl

/-- Modelled from the spec: `force_next_update` (declared in the missing
header, called by `write_state`) flags the next evaluation to bypass the
"skip if unchanged" dead-band, i.e. it resets `last_requested_color_temp_`
to the unset sentinel. -/
def force_next_update (s : CState) : CState :=
  { s with last_requested_color_temp := none }

/-- `AdaptiveLightningComponent::update` (lines 32-83): the periodic tick.
Returns the new controller state and the command issued to the light, if
any. -/
def update (cfg : Config) (env : Env) (s : CState) : CState × Option Command :=
  if env.has_light = false ∨ env.has_sun = false then (s, none)
  else if s.state = false then (s, none)
  else if env.light.is_on = false then (s, none)
  else
    match env.sunrise, env.sunset with
    | some sunrise, some sunset =>
      if dead_band s.last_requested_color_temp
          (calc_color_temperature env.now sunrise sunset cfg.min_mireds cfg.max_mireds cfg.speed)
      then (s, none)
      else
        ({ s with last_requested_color_temp :=
                    some (calc_color_temperature env.now sunrise sunset cfg.min_mireds
                      cfg.max_mireds cfg.speed) },
         some { color_temp := calc_color_temperature env.now sunrise sunset cfg.min_mireds
                                cfg.max_mireds cfg.speed
                brightness := env.light.brightness
                transition :=
                  if 0 < cfg.transition_length then some cfg.transition_length else none })
    | _, _ => (s, none)

/-- `AdaptiveLightningComponent::write_state` (lines 85-98): on an actual
enable/disable change, force the next evaluation, publish the new switch
state, re-evaluate immediately, and force the next evaluation again (to
update the color after a turn-on transition). -/
def write_state (cfg : Config) (env : Env) (b : Bool) (s : CState) : CState × List Command :=
  if s.state ≠ b then
    (force_next_update (update cfg env { force_next_update s with state := b }).1,
     (update cfg env { force_next_update s with state := b }).2.toList)
  else (s, [])

/-- `AdaptiveLightningComponent::handle_light_state_change` (lines 100-125):
reacts to any observed change of the light's values.  With the light on,
an external color change while enabled self-disables; a fresh off-to-on
edge while disabled re-enables under the always-on restore mode.
`previous_light_state_` is updated unconditionally at the end. -/
def handle_light_state_change (cfg : Config) (env : Env) (s : CState) : CState × List Command :=
  if env.has_light = false then (s, [])
  else if env.light.is_on = true then
    if s.state = true ∧ externally_changed s.last_requested_color_temp env.light.color_temp then
      ({ (write_state cfg env false s).1 with previous_light_state := env.light.is_on },
       (write_state cfg env false s).2)
    else if s.previous_light_state = false ∧ s.state = false ∧ cfg.restore_always_on = true then
      ({ (write_state cfg env true s).1 with previous_light_state := env.light.is_on },
       (write_state cfg env true s).2)
    else ({ s with previous_light_state := env.light.is_on }, [])
  else ({ s with previous_light_state := env.light.is_on }, [])

/-- `AdaptiveLightningComponent::handle_target_state_reached` (lines
127-136): when a light transition completes and the light was on and
adaptive lighting is enabled, re-evaluate. -/
def handle_target_state_reached (cfg : Config) (env : Env) (s : CState) : CState × List Command :=
  if env.has_light = false then (s, [])
  else if s.previous_light_state = true ∧ s.state = true then
    ((update cfg env s).1, (update cfg env s).2.toList)
  else (s, [])

/-! ## Claims about the curve -/

/-- Claim C5: for every `now`, `sunrise`, `sunset`, bounds and speed with
`now < sunrise` or `now > sunset`, `calc_color_temperature` returns
`max_mireds` exactly (the night value), independent of `min_mireds` and
`speed`. -/
theorem C5_night_value (now sunrise sunset : ℤ) (min_mireds max_mireds speed : ℝ)
    (h : now < sunrise ∨ sunset < now) :
    calc_color_temperature now sunrise sunset min_mireds max_mireds speed = max_mireds := by
  rw [calc_color_temperature, if_pos h]

theorem C5_night_value_witness :
    calc_color_temperature 82800 21600 64800 153 500 1 = 500 :=
  C5_night_value 82800 21600 64800 153 500 1 (Or.inr (by norm_num))

/-- Claim C2, counterexample: at `sunrise` the curve is calibrated to the
`max_mireds` end, not to `min_mireds`; with `min = 153`, `max = 500`,
`sunrise = 21600`, `sunset = 64800`, `speed = 1` the value at sunrise is
499.7, which is not within 0.01% of the range of `min_mireds`. -/
theorem C2_sunrise_calibration_counterexample :
    ¬(|calc_color_temperature 21600 21600 64800 153 500 1 - 153| ≤ (1 / 10000) * (500 - 153)) := by
  have hv : calc_color_temperature 21600 21600 64800 153 500 1 = 4997 / 10 := by
    rw [calc_in_window le_rfl (by norm_num)]
    have e : ((21600 - 21600 : ℤ) : ℝ) / ((64800 - 21600 : ℤ) : ℝ) = 0 := by norm_num
    rw [e, smooth_transition_edge _ _ _ (by rw [show (1:ℝ) - 0 * 2 = 1 by norm_num, abs_one])]
    rw [show (153:ℝ) + (500 - 153) * (999 / 1000) = 499653 / 1000 by norm_num]
    rw [round1_eq_of 4997 (by norm_num) (by norm_num)]
    norm_num
  rw [hv]
  rw [show |(4997:ℝ) / 10 - 153| = 3467 / 10 by
    rw [abs_of_nonneg (by norm_num)]; norm_num]
  norm_num

/-- Claim C2, amended: for `min_mireds ≤ max_mireds` and `sunrise < sunset`,
the curve at BOTH window endpoints is calibrated to the `max_mireds` end:
the value at `sunrise` and the value at `sunset` are each within 0.1% of
the range of `max_mireds`, up to the half-step (0.05) of the one-decimal
rounding. -/
theorem C2_endpoint_calibration (sunrise sunset : ℤ) (mn mx speed : ℝ)
    (hw : sunrise < sunset) (hm : mn ≤ mx) :
    |calc_color_temperature sunrise sunrise sunset mn mx speed - mx| ≤ (mx - mn) / 1000 + 1 / 20 ∧
    |calc_color_temperature sunset sunrise sunset mn mx speed - mx| ≤ (mx - mn) / 1000 + 1 / 20 := by
  have hdist : |(mn + (mx - mn) * (999 / 1000)) - mx| = (mx - mn) / 1000 := by
    rw [show mn + (mx - mn) * (999 / 1000) - mx = -((mx - mn) / 1000) by ring, abs_neg,
      abs_of_nonneg (by linarith)]
  constructor
  · rw [calc_in_window le_rfl hw.le]
    have e : ((sunrise - sunrise : ℤ) : ℝ) / ((sunset - sunrise : ℤ) : ℝ) = 0 := by simp
    rw [e, smooth_transition_edge _ _ _ (by rw [show (1:ℝ) - 0 * 2 = 1 by norm_num, abs_one])]
    have htri := abs_sub_le (round1 (mn + (mx - mn) * (999 / 1000)))
      (mn + (mx - mn) * (999 / 1000)) mx
    have hcl := round1_close (mn + (mx - mn) * (999 / 1000))
    linarith [htri, hcl, hdist.le, hdist.ge]
  · rw [calc_in_window hw.le le_rfl]
    have hne : ((sunset - sunrise : ℤ) : ℝ) ≠ 0 := Int.cast_ne_zero.2 (by omega)
    have e : ((sunset - sunrise : ℤ) : ℝ) / ((sunset - sunrise : ℤ) : ℝ) = 1 := div_self hne
    rw [e, smooth_transition_edge _ _ _ (by
      rw [show (1:ℝ) - 1 * 2 = -1 by norm_num, abs_neg, abs_one])]
    have htri := abs_sub_le (round1 (mn + (mx - mn) * (999 / 1000)))
      (mn + (mx - mn) * (999 / 1000)) mx
    have hcl := round1_close (mn + (mx - mn) * (999 / 1000))
    linarith [htri, hcl, hdist.le, hdist.ge]

theorem C2_endpoint_calibration_witness :
    |calc_color_temperature 21600 21600 64800 153 500 1 - 500| ≤ (500 - 153) / 1000 + 1 / 20 ∧
    |calc_color_temperature 64800 21600 64800 153 500 1 - 500| ≤ (500 - 153) / 1000 + 1 / 20 :=
  C2_endpoint_calibration 21600 64800 153 500 1 (by norm_num) (by norm_num)

/-- Claim C3, counterexample: at solar noon the curve sits at the
`min_mireds` end, not at the midpoint of the range; with `min = 153`,
`max = 500`, `sunrise = 21600`, `sunset = 64800`, `speed = 1` the value at
noon (43200) is 153.0, not `(153 + 500) / 2 = 326.5`. -/
theorem C3_midpoint_counterexample :
    calc_color_temperature 43200 21600 64800 153 500 1 ≠ (153 + 500) / 2 := by
  have hv : calc_color_temperature 43200 21600 64800 153 500 1 = 153 := by
    rw [calc_in_window (by norm_num) (by norm_num)]
    have e : ((43200 - 21600 : ℤ) : ℝ) / ((64800 - 21600 : ℤ) : ℝ) = 1 / 2 := by norm_num
    rw [e, smooth_transition_noon _ _ (by norm_num : (1:ℝ) ≠ 0)
      (by rw [show (1:ℝ) - 1 / 2 * 2 = 0 by norm_num, abs_zero])]
    rw [show (153:ℝ) + (500 - 153) * (1 / 100000) = 15300347 / 100000 by norm_num]
    rw [round1_eq_of 1530 (by norm_num) (by norm_num)]
    norm_num
  rw [hv]
  norm_num

/-- Claim C3, amended: for `min_mireds ≤ max_mireds`, `sunrise < sunset`
and `speed > 0`, the value at solar noon `(sunrise + sunset) / 2` is within
0.001% of the range of `min_mireds`, up to the half-step (0.05) of the
one-decimal rounding — not the midpoint `(min + max) / 2` of the range. -/
theorem C3_noon_value (now sunrise sunset : ℤ) (mn mx speed : ℝ)
    (hw : sunrise < sunset) (hm : mn ≤ mx) (hmid : now * 2 = sunrise + sunset)
    (hsp : 0 < speed) :
    |calc_color_temperature now sunrise sunset mn mx speed - mn| ≤ (mx - mn) / 100000 + 1 / 20 := by
  have h1 : sunrise ≤ now := by omega
  have h2 : now ≤ sunset := by omega
  rw [calc_in_window h1 h2]
  have hne : ((sunset - sunrise : ℤ) : ℝ) ≠ 0 := Int.cast_ne_zero.2 (by omega)
  have e : ((now - sunrise : ℤ) : ℝ) / ((sunset - sunrise : ℤ) : ℝ) = 1 / 2 := by
    rw [div_eq_iff hne]
    have hc : (now : ℝ) * 2 = (sunrise : ℝ) + (sunset : ℝ) := by exact_mod_cast hmid
    push_cast
    linarith
  rw [e, smooth_transition_noon _ _ hsp.ne'
    (by rw [show (1:ℝ) - 1 / 2 * 2 = 0 by norm_num, abs_zero])]
  have hdist : |(mn + (mx - mn) * (1 / 100000)) - mn| = (mx - mn) / 100000 := by
    rw [show mn + (mx - mn) * (1 / 100000) - mn = (mx - mn) / 100000 by ring,
      abs_of_nonneg (by linarith)]
  have htri := abs_sub_le (round1 (mn + (mx - mn) * (1 / 100000)))
    (mn + (mx - mn) * (1 / 100000)) mn
  have hcl := round1_close (mn + (mx - mn) * (1 / 100000))
  linarith [htri, hcl, hdist.le, hdist.ge]

theorem C3_noon_value_witness :
    |calc_color_temperature 43200 21600 64800 153 500 1 - 153| ≤ (500 - 153) / 100000 + 1 / 20 :=
  C3_noon_value 43200 21600 64800 153 500 1 (by norm_num) (by norm_num) (by norm_num)
    (by norm_num)

/-- Claim C6, counterexample: the one-decimal rounding CAN leave the range
`[min_mireds, max_mireds]`.  With `min = 0.13`, `max = 0.23`, `sunrise = 0`,
`sunset = 1000`, `speed = 1`, at the in-window instant `now = 600` the
pre-rounding value lies in (0.13, 0.15) and rounds down to 0.1 < min. -/
theorem C6_range_counterexample :
    ¬((13:ℝ) / 100 ≤ calc_color_temperature 600 0 1000 (13 / 100) (23 / 100) 1 ∧
      calc_color_temperature 600 0 1000 (13 / 100) (23 / 100) 1 ≤ 23 / 100) := by
  have harg : aConst * ((1:ℝ) / 5 - bConst)
      = Real.log 999 / 10 - 2 * Real.log 99999 / 5 := by
    rw [bConst]
    have ha : aConst ≠ 0 := aConst_pos.ne'
    rw [show (1:ℝ) / 5 - -(atanh (2 * y1 - 1) / aConst)
        = 1 / 5 + atanh (2 * y1 - 1) / aConst by ring]
    rw [mul_add, mul_div_cancel₀ _ ha, aConst_eq, atanh_y1]
    ring
  have h2T : 2 * (Real.log 999 / 10 - 2 * Real.log 99999 / 5) < -(2 * Real.log 2) := by
    have h1 := log_999_lt_7
    have h2 := log_99999_gt_11
    have h3 := log_two_lt_one
    linarith
  have hE : Real.exp (2 * (Real.log 999 / 10 - 2 * Real.log 99999 / 5)) < 1 / 4 := by
    have hlt := Real.exp_lt_exp.2 h2T
    have heq : Real.exp (-(2 * Real.log 2)) = 1 / 4 := by
      rw [show -(2 * Real.log 2) = Real.log ((4:ℝ)⁻¹) by
        rw [Real.log_inv, show (4:ℝ) = 2 ^ (2:ℕ) by norm_num, Real.log_pow]
        push_cast
        ring]
      rw [Real.exp_log (by norm_num)]
      norm_num
    linarith [heq ▸ hlt]
  have hT : Real.tanh (aConst * ((1:ℝ) / 5 - bConst)) < -(3 / 5) := by
    rw [harg, tanh_eq_exp]
    have hEpos := Real.exp_pos (2 * (Real.log 999 / 10 - 2 * Real.log 99999 / 5))
    rw [div_lt_iff (by linarith)]
    linarith
  have hT1 : -1 < Real.tanh (aConst * ((1:ℝ) / 5 - bConst)) :=
    (tanh_mem_Ioo _).1
  have hv : calc_color_temperature 600 0 1000 (13 / 100) (23 / 100) 1 = 1 / 10 := by
    rw [calc_in_window (by norm_num) (by norm_num)]
    have e : ((600 - 0 : ℤ) : ℝ) / ((1000 - 0 : ℤ) : ℝ) = 3 / 5 := by norm_num
    rw [e, smooth_transition]
    rw [show |1 - (3:ℝ) / 5 * 2| = 1 / 5 by
      rw [show (1:ℝ) - 3 / 5 * 2 = -(1 / 5) by norm_num, abs_neg,
        abs_of_pos (by norm_num : (0:ℝ) < 1 / 5)]]
    rw [Real.rpow_one]
    rw [round1_eq_of 1 (by nlinarith) (by nlinarith)]
    norm_num
  rw [hv]
  norm_num

/-- Claim C6, amended: for every in-window `now` (strictly between sunrise
and sunset), `min_mireds ≤ max_mireds` and `speed > 0`, the returned value
lies within `[min_mireds - 0.05, max_mireds + 0.05]`: the tanh sigmoid
itself stays inside `[min, max]`, and the one-decimal rounding can move the
result out of the range by at most half a rounding step (0.05). -/
theorem C6_range_with_rounding (now sunrise sunset : ℤ) (mn mx speed : ℝ)
    (h1 : sunrise < now) (h2 : now < sunset) (hm : mn ≤ mx) (hsp : 0 < speed) :
    mn - 1 / 20 ≤ calc_color_temperature now sunrise sunset mn mx speed ∧
    calc_color_temperature now sunrise sunset mn mx speed ≤ mx + 1 / 20 := by
  rw [calc_in_window h1.le h2.le]
  obtain ⟨hl, hu⟩ := smooth_transition_mem
    (((now - sunrise : ℤ) : ℝ) / ((sunset - sunrise : ℤ) : ℝ)) speed hm
  obtain ⟨ha, hb⟩ := abs_le.1 (round1_close
    (smooth_transition (((now - sunrise : ℤ) : ℝ) / ((sunset - sunrise : ℤ) : ℝ)) mn mx speed))
  constructor <;> linarith

theorem C6_range_with_rounding_witness :
    (153:ℝ) - 1 / 20 ≤ calc_color_temperature 43200 21600 64800 153 500 1 ∧
    calc_color_temperature 43200 21600 64800 153 500 1 ≤ 500 + 1 / 20 :=
  C6_range_with_rounding 43200 21600 64800 153 500 1 (by norm_num) (by norm_num) (by norm_num)
    (by norm_num)

/-- Claim C7: for fixed `sunrise < sunset`, `min_mireds ≤ max_mireds` and
`speed > 0`, the curve restricted to the daylight window is non-decreasing
in the distance of `now` from solar noon `(sunrise + sunset) / 2`. -/
theorem C7_monotone_in_noon_distance (sunrise sunset t1 t2 : ℤ) (mn mx speed : ℝ)
    (hw : sunrise < sunset) (hm : mn ≤ mx) (hsp : 0 < speed)
    (h1a : sunrise ≤ t1) (h1b : t1 ≤ sunset) (h2a : sunrise ≤ t2) (h2b : t2 ≤ sunset)
    (hd : |(t1 : ℝ) - ((sunrise : ℝ) + (sunset : ℝ)) / 2|
        ≤ |(t2 : ℝ) - ((sunrise : ℝ) + (sunset : ℝ)) / 2|) :
    calc_color_temperature t1 sunrise sunset mn mx speed ≤
      calc_color_temperature t2 sunrise sunset mn mx speed := by
  rw [calc_in_window h1a h1b, calc_in_window h2a h2b]
  apply round1_mono
  apply smooth_transition_mono hm hsp.le
  have hden : (0:ℝ) < ((sunset - sunrise : ℤ) : ℝ) := by
    exact_mod_cast (by omega : (0:ℤ) < sunset - sunrise)
  have hne : (sunset : ℝ) - (sunrise : ℝ) ≠ 0 := by
    have := hden
    push_cast at this
    linarith
  have key : ∀ t : ℤ, (1 : ℝ) - ((t - sunrise : ℤ) : ℝ) / ((sunset - sunrise : ℤ) : ℝ) * 2
      = (((sunrise : ℝ) + (sunset : ℝ)) - 2 * (t : ℝ)) / ((sunset - sunrise : ℤ) : ℝ) := by
    intro t
    push_cast
    field_simp
    ring
  have habs : ∀ t : ℤ, |((sunrise : ℝ) + (sunset : ℝ)) - 2 * (t : ℝ)|
      = 2 * |(t : ℝ) - ((sunrise : ℝ) + (sunset : ℝ)) / 2| := by
    intro t
    rw [show ((sunrise : ℝ) + (sunset : ℝ)) - 2 * (t : ℝ)
        = -(2 * ((t : ℝ) - ((sunrise : ℝ) + (sunset : ℝ)) / 2)) by ring, abs_neg, abs_mul,
      abs_of_pos (by norm_num : (0:ℝ) < 2)]
  rw [key t1, key t2, abs_div, abs_div, abs_of_pos hden, habs t1, habs t2]
  rw [div_le_div_iff hden hden]
  exact mul_le_mul_of_nonneg_right (by linarith) hden.le

theorem C7_monotone_in_noon_distance_witness :
    calc_color_temperature 43200 21600 64800 153 500 1 ≤
      calc_color_temperature 50000 21600 64800 153 500 1 :=
  C7_monotone_in_noon_distance 21600 64800 43200 50000 153 500 1 (by norm_num) (by norm_num)
    (by norm_num) (by norm_num) (by norm_num) (by norm_num) (by norm_num)
    (by push_cast
        rw [show (43200:ℝ) - ((21600:ℝ) + 64800) / 2 = 0 by norm_num, abs_zero]
        positivity)

/-! ## Claims about the controller -/

theorem update_preserves (cfg : Config) (env : Env) (s : CState) :
    (update cfg env s).1.state = s.state ∧
    (update cfg env s).1.previous_light_state = s.previous_light_state := by
  obtain ⟨hL, hS, lv, tn, osr, oss⟩ := env
  rcases osr with _ | sr <;> rcases oss with _ | ss <;>
    (simp only [update]; split_ifs <;> simp)

theorem update_of_some (cfg : Config) (env : Env) (s : CState) (sr ss : ℤ)
    (hl : env.has_light = true) (hsun : env.has_sun = true) (hst : s.state = true)
    (hon : env.light.is_on = true) (hsr : env.sunrise = some sr) (hss : env.sunset = some ss)
    (hdb : ¬ dead_band s.last_requested_color_temp
      (calc_color_temperature env.now sr ss cfg.min_mireds cfg.max_mireds cfg.speed)) :
    update cfg env s =
      ({ s with last_requested_color_temp :=
                  some (calc_color_temperature env.now sr ss cfg.min_mireds cfg.max_mireds
                    cfg.speed) },
       some { color_temp := calc_color_temperature env.now sr ss cfg.min_mireds cfg.max_mireds
                              cfg.speed
              brightness := env.light.brightness
              transition :=
                if 0 < cfg.transition_length then some cfg.transition_length else none }) := by
  obtain ⟨hL, hS, lv, tn, osr, oss⟩ := env
  dsimp only at hl hsun hon hsr hss hdb ⊢
  subst hl hsun hsr hss
  simp only [update, hst, hon]
  split_ifs <;> simp_all

theorem write_state_sets (cfg : Config) (env : Env) (b : Bool) (s : CState) :
    (write_state cfg env b s).1.state = b := by
  rw [write_state]
  split_ifs with h
  · have hu := (update_preserves cfg env { force_next_update s with state := b }).1
    simpa [force_next_update] using hu
  · simpa using h

/-- Claim C9: `update` is a pure no-op — no command is issued and the
controller state (including `last_requested_color_temp`) is returned
unchanged — whenever any precondition fails: light or sun component
absent, automatic updates disabled, light off, or today's sunrise or
sunset undeterminable. -/
theorem C9_update_noop (cfg : Config) (env : Env) (s : CState)
    (h : env.has_light = false ∨ env.has_sun = false ∨ s.state = false ∨
      env.light.is_on = false ∨ env.sunrise = none ∨ env.sunset = none) :
    update cfg env s = (s, none) := by
  obtain ⟨hL, hS, lv, tn, osr, oss⟩ := env
  dsimp only at h
  rcases osr with _ | sr <;> rcases oss with _ | ss <;>
    (simp only [update]; split_ifs <;> simp_all)

theorem C9_update_noop_witness :
    update { restore_always_on := true, min_mireds := 153, max_mireds := 500, speed := 1,
             transition_length := 0 }
      { has_light := true, has_sun := true,
        light := { is_on := false, color_temp := 500, brightness := 1 },
        now := 43200, sunrise := some 21600, sunset := some 64800 }
      { state := true, last_requested_color_temp := none, previous_light_state := true }
    = ({ state := true, last_requested_color_temp := none, previous_light_state := true },
       none) :=
  C9_update_noop _ _ _ (Or.inr (Or.inr (Or.inr (Or.inl rfl))))

/-- Claim C10: when `handle_light_state_change` observes the light off, the
only state change is `previous_light_state := false`; `state` (enabled) and
`last_requested_color_temp` are untouched and no command is issued. -/
theorem C10_light_off_frame (cfg : Config) (env : Env) (s : CState)
    (hl : env.has_light = true) (hoff : env.light.is_on = false) :
    handle_light_state_change cfg env s = ({ s with previous_light_state := false }, []) := by
  rw [handle_light_state_change, if_neg (by simp [hl]), if_neg (by simp [hoff]), hoff]

theorem C10_light_off_frame_witness :
    handle_light_state_change
      { restore_always_on := true, min_mireds := 153, max_mireds := 500, speed := 1,
        transition_length := 0 }
      { has_light := true, has_sun := true,
        light := { is_on := false, color_temp := 400, brightness := 1 },
        now := 43200, sunrise := some 21600, sunset := some 64800 }
      { state := true, last_requested_color_temp := some 500, previous_light_state := true }
    = ({ state := true, last_requested_color_temp := some 500, previous_light_state := false },
       []) :=
  C10_light_off_frame _ _ _ rfl rfl

/-- Claim C4: with the light on, the controller enabled, and a previously
commanded temperature `l > 0` recorded, `handle_light_state_change`
self-disables (`enabled := false`) exactly when the observed color differs
from `l` by more than 0.1; when it differs by at most 0.1 the enabled state
is left unchanged (true). -/
theorem C4_external_override (cfg : Config) (env : Env) (s : CState) (l : ℝ)
    (hl : env.has_light = true) (hon : env.light.is_on = true) (hs : s.state = true)
    (hlast : s.last_requested_color_temp = some l) (hpos : 0 < l) :
    (0.1 < |env.light.color_temp - l| →
      (handle_light_state_change cfg env s).1.state = false) ∧
    (|env.light.color_temp - l| ≤ 0.1 →
      (handle_light_state_change cfg env s).1.state = true) := by
  constructor
  · intro hgt
    rw [handle_light_state_change, if_neg (by simp [hl]), if_pos hon,
      if_pos ⟨hs, by rw [hlast]; exact ⟨hpos, hgt⟩⟩]
    exact write_state_sets cfg env false s
  · intro hle
    rw [handle_light_state_change, if_neg (by simp [hl]), if_pos hon,
      if_neg (by rw [hlast]; rintro ⟨-, -, hgt⟩; linarith),
      if_neg (by simp [hs])]
    exact hs

theorem C4_external_override_witness :
    (handle_light_state_change
      { restore_always_on := false, min_mireds := 153, max_mireds := 500, speed := 1,
        transition_length := 0 }
      { has_light := true, has_sun := true,
        light := { is_on := true, color_temp := 400, brightness := 1 },
        now := 43200, sunrise := some 21600, sunset := some 64800 }
      { state := true, last_requested_color_temp := some (653 / 2),
        previous_light_state := true }).1.state = false ∧
    (handle_light_state_change
      { restore_always_on := false, min_mireds := 153, max_mireds := 500, speed := 1,
        transition_length := 0 }
      { has_light := true, has_sun := true,
        light := { is_on := true, color_temp := 653 / 2, brightness := 1 },
        now := 43200, sunrise := some 21600, sunset := some 64800 }
      { state := true, last_requested_color_temp := some (653 / 2),
        previous_light_state := true }).1.state = true :=
  ⟨(C4_external_override _ _ _ (653 / 2) rfl rfl rfl rfl (by norm_num)).1
      (by norm_num [abs_of_nonneg]),
   (C4_external_override _ _ _ (653 / 2) rfl rfl rfl rfl (by norm_num)).2
      (by norm_num)⟩

theorem update_issued {cfg : Config} {env : Env} {s s' : CState} {c : Command}
    (h : update cfg env s = (s', some c)) :
    s' = { s with last_requested_color_temp := some c.color_temp } ∧ s.state = true := by
  obtain ⟨hL, hS, lv, tn, osr, oss⟩ := env
  rcases osr with _ | sr <;> rcases oss with _ | ss <;>
    (simp only [update] at h; split_ifs at h <;> simp_all) <;>
    (obtain ⟨h1, h2⟩ := h; subst h1; subst h2; simp)

/-- Claim C1: if `update` issues a command with target temperature `t`,
then `last_requested_color_temp = t` afterwards, and a subsequent
`handle_light_state_change` that observes the light on with current color
within 0.1 of `t` (the echo of the controller's own command) never
self-disables: `enabled` stays true. -/
theorem C1_echo_does_not_self_disable (cfg : Config) (env env2 : Env) (s s' : CState)
    (c : Command) (hs : s.state = true)
    (h : update cfg env s = (s', some c))
    (h2l : env2.has_light = true) (h2on : env2.light.is_on = true)
    (hecho : |env2.light.color_temp - c.color_temp| ≤ 0.1) :
    s'.last_requested_color_temp = some c.color_temp ∧
    (handle_light_state_change cfg env2 s').1.state = true := by
  obtain ⟨hs', -⟩ := update_issued h
  subst hs'
  refine ⟨rfl, ?_⟩
  have hA : ¬(({ s with last_requested_color_temp := some c.color_temp } : CState).state = true ∧
      externally_changed
        ({ s with last_requested_color_temp := some c.color_temp } : CState).last_requested_color_temp
        env2.light.color_temp) := by
    rintro ⟨-, hec⟩
    simp only [externally_changed_some] at hec
    rcases hec with ⟨-, hgt⟩
    linarith
  have hB : ¬(({ s with last_requested_color_temp := some c.color_temp } : CState).previous_light_state = false ∧
      ({ s with last_requested_color_temp := some c.color_temp } : CState).state = false ∧
      cfg.restore_always_on = true) := by
    rintro ⟨-, hfalse, -⟩
    rw [show ({ s with last_requested_color_temp := some c.color_temp } : CState).state = s.state
      from rfl, hs] at hfalse
    simp at hfalse
  rw [handle_light_state_change, if_neg (by simp [h2l]), if_pos h2on, if_neg hA, if_neg hB]
  exact hs

theorem C1_echo_does_not_self_disable_witness :
    ({ state := true, last_requested_color_temp := some 500,
       previous_light_state := true } : CState).last_requested_color_temp
      = some (({ color_temp := 500, brightness := 1, transition := none } : Command).color_temp) ∧
    (handle_light_state_change
      { restore_always_on := false, min_mireds := 153, max_mireds := 500, speed := 1,
        transition_length := 0 }
      { has_light := true, has_sun := true,
        light := { is_on := true, color_temp := 500, brightness := 1 },
        now := 82800, sunrise := some 21600, sunset := some 64800 }
      { state := true, last_requested_color_temp := some 500,
        previous_light_state := true }).1.state = true :=
  C1_echo_does_not_self_disable
    { restore_always_on := false, min_mireds := 153, max_mireds := 500, speed := 1,
      transition_length := 0 }
    { has_light := true, has_sun := true,
      light := { is_on := true, color_temp := 500, brightness := 1 },
      now := 82800, sunrise := some 21600, sunset := some 64800 }
    { has_light := true, has_sun := true,
      light := { is_on := true, color_temp := 500, brightness := 1 },
      now := 82800, sunrise := some 21600, sunset := some 64800 }
    { state := true, last_requested_color_temp := none, previous_light_state := true }
    { state := true, last_requested_color_temp := some 500, previous_light_state := true }
    { color_temp := 500, brightness := 1, transition := none }
    rfl
    (by simp [update, calc_color_temperature])
    rfl rfl
    (by norm_num)

/-- Claim C8: with restore mode always-on and the controller disabled, when
`handle_light_state_change` observes the off-to-on edge
(`previous_light_state = false`, light now on), the controller re-enables
itself (`state := true`); when the subsequent on-transition completes,
`handle_target_state_reached` issues exactly one color command (the
trailing `force_next_update` of `write_state` guarantees the dead-band does
not swallow it). -/
theorem C8_auto_reenable (cfg : Config) (env env2 : Env) (s : CState)
    (hres : cfg.restore_always_on = true)
    (hs : s.state = false) (hprev : s.previous_light_state = false)
    (hl : env.has_light = true) (hsun : env.has_sun = true) (hon : env.light.is_on = true)
    (sr ss : ℤ) (hsr : env.sunrise = some sr) (hss : env.sunset = some ss)
    (h2l : env2.has_light = true) (h2sun : env2.has_sun = true) (h2on : env2.light.is_on = true)
    (sr2 ss2 : ℤ) (h2sr : env2.sunrise = some sr2) (h2ss : env2.sunset = some ss2) :
    (handle_light_state_change cfg env s).1.state = true ∧
    (handle_target_state_reached cfg env2 (handle_light_state_change cfg env s).1).2.length
      = 1 := by
  have hws1 : (write_state cfg env true s).1
      = ⟨true, none, s.previous_light_state⟩ := by
    rw [write_state, if_pos (by simp [hs])]
    rw [update_of_some cfg env _ sr ss hl hsun rfl hon hsr hss (by simp [force_next_update])]
    rfl
  have hstep : (handle_light_state_change cfg env s).1 = ⟨true, none, true⟩ := by
    rw [handle_light_state_change, if_neg (by simp [hl]), if_pos hon,
      if_neg (by rintro ⟨hst, -⟩; rw [hs] at hst; simp at hst),
      if_pos ⟨hprev, hs, hres⟩]
    simp only [hws1, hon]
  have hup := update_of_some cfg env2 ⟨true, none, true⟩ sr2 ss2 h2l h2sun rfl h2on h2sr h2ss
    (by simp)
  constructor
  · rw [hstep]
  · rw [hstep, handle_target_state_reached, if_neg (by simp [h2l]), if_pos ⟨rfl, rfl⟩, hup]
    simp

theorem C8_auto_reenable_witness :
    (handle_light_state_change
      { restore_always_on := true, min_mireds := 153, max_mireds := 500, speed := 1,
        transition_length := 0 }
      { has_light := true, has_sun := true,
        light := { is_on := true, color_temp := 400, brightness := 1 },
        now := 82800, sunrise := some 21600, sunset := some 64800 }
      { state := false, last_requested_color_temp := none,
        previous_light_state := false }).1.state = true ∧
    (handle_target_state_reached
      { restore_always_on := true, min_mireds := 153, max_mireds := 500, speed := 1,
        transition_length := 0 }
      { has_light := true, has_sun := true,
        light := { is_on := true, color_temp := 400, brightness := 1 },
        now := 82800, sunrise := some 21600, sunset := some 64800 }
      (handle_light_state_change
        { restore_always_on := true, min_mireds := 153, max_mireds := 500, speed := 1,
          transition_length := 0 }
        { has_light := true, has_sun := true,
          light := { is_on := true, color_temp := 400, brightness := 1 },
          now := 82800, sunrise := some 21600, sunset := some 64800 }
        { state := false, last_requested_color_temp := none,
          previous_light_state := false }).1).2.length = 1 :=
  C8_auto_reenable _ _ _ _ rfl rfl rfl rfl rfl rfl 21600 64800 rfl rfl rfl rfl rfl
    21600 64800 rfl rfl
